import Mathlib

/-!
Verification of `unicornherder` (src/unicornherder/herder.py) against its
design specification.

The Python module is shallowly embedded below.  Pure control flow is
translated into Lean functions; real-time behaviour (sleeps, the SIGALRM
based `timeout` context manager) is modelled with discrete 1-second ticks;
the process environment (pidfile reads, process liveness, child counts) is
passed in explicitly as functions of time/attempt number.  Exceptions are
modelled as explicit outcome constructors.

Two small helper modules of the repository (`unicornherder/pidfile.py` and
`unicornherder/timeout.py`) are not part of the given sources; where they
matter they are modelled from the specification (see the doc comments that
mention this).
-/

namespace Unicornherder

/-- The `COMMANDS` table of herder.py: flavor name to command template. -/
def COMMANDS : List (String × String) :=
  [ ("unicorn", "unicorn -D -P \"{pidfile}\" {args}"),
    ("unicorn_rails", "unicorn_rails -D {args}"),
    ("unicorn_bin", "{unicorn_bin} -D -P \"{pidfile}\" {args}"),
    ("gunicorn", "gunicorn -D -p \"{pidfile}\" {args}"),
    ("gunicorn_django", "gunicorn_django -D -p \"{pidfile}\" {args}"),
    ("gunicorn_bin", "{gunicorn_bin} -D -p \"{pidfile}\" {args}") ]

/-- Configuration and state fields set up by `Herder.__init__`. -/
structure Herder where
  unicorn : String
  unicorn_bin : Option String
  gunicorn_bin : Option String
  pidfile : String
  args : String
  boot_timeout : Nat
  pidfile_timeout : Nat
  overlap : Nat
  max_worker_wait_time : Nat
  master : Option Nat
  reloading : Bool
  terminating : Bool
deriving DecidableEq

/-- Embedding of `Herder.__init__`.  The Python constructor picks
`self.unicorn` from `unicorn_bin`, else `gunicorn_bin`, else the `unicorn`
flavor name, derives a default pidfile name, and — when neither custom
binary is given — looks the flavor up in `COMMANDS`, turning a `KeyError`
into `HerderError('Unknown unicorn type: ...')`.  Raising is modelled by
`Except.error`. -/
def Herder.init (unicorn : String) (unicorn_bin gunicorn_bin : Option String)
    (pidfile : Option String) (boot_timeout pidfile_timeout overlap max_worker_wait_time : Nat)
    (args : String) : Except String Herder :=
  let u : String :=
    match unicorn_bin with
    | some b => b
    | none =>
      match gunicorn_bin with
      | some b => b
      | none => unicorn
  let pf : String :=
    match pidfile with
    | none => u ++ ".pid"
    | some p => p
  if unicorn_bin.isNone && gunicorn_bin.isNone && (COMMANDS.lookup u).isNone then
    Except.error ("Unknown unicorn type: " ++ u)
  else
    Except.ok
      { unicorn := u, unicorn_bin := unicorn_bin, gunicorn_bin := gunicorn_bin,
        pidfile := pf, args := args, boot_timeout := boot_timeout,
        pidfile_timeout := pidfile_timeout, overlap := overlap,
        max_worker_wait_time := max_worker_wait_time,
        master := none, reloading := false, terminating := false }

/-- The signals herder.py mentions. -/
inductive Sig
  | SIGHUP | SIGINT | SIGQUIT | SIGTERM | SIGTTIN | SIGTTOU
  | SIGUSR1 | SIGUSR2 | SIGWINCH
deriving DecidableEq

/-- A signal delivery: which signal was sent to which PID at which (discrete,
1-second granularity) time. -/
structure SigSend where
  time : Nat
  sig : Sig
  target : Nat
deriving DecidableEq

/-- A handle on an OS process, as used through psutil: the PID plus its
liveness over discrete time.  psutil's `Process.send_signal` succeeds on a
live process and raises `psutil.NoSuchProcess` when the process is gone. -/
structure ProcHandle where
  pid : Nat
  alive_at : Nat → Bool

/-- Embedding of `_kill_old_master(process)` starting at time `t0`:
`send_signal(SIGWINCH)`, `time.sleep(1)`, `send_signal(SIGQUIT)`.
Returns the signals actually delivered and whether a `psutil.NoSuchProcess`
exception escaped (the Python body has no exception handler, so a failed
send propagates and aborts the remaining sends).  The function returns
without waiting for the old master to exit. -/
def kill_old_master (process : ProcHandle) (t0 : Nat) : List SigSend × Bool :=
  if process.alive_at t0 = false then
    ([], true)
  else if process.alive_at (t0 + 1) = false then
    ([⟨t0, Sig.SIGWINCH, process.pid⟩], true)
  else
    ([⟨t0, Sig.SIGWINCH, process.pid⟩, ⟨t0 + 1, Sig.SIGQUIT, process.pid⟩], false)

/-- Result of `_wait_for_workers`: the computed worker target, whether the
bounded poll timed out (the caught `TimeoutError` branch), whether the
`overlap` hold was performed, and the (discrete) time at which the function
returned, measured from its call. -/
structure WaitResult where
  expected_children : Int
  timed_out : Bool
  overlap_held : Bool
  return_time : Nat
deriving DecidableEq

/-- The poll loop of `_wait_for_workers`: checks the new master's child
count once per second starting at time `t`, for `remaining` further ticks,
and returns the first time the count reaches `expected`.  `none` means the
deadline elapsed first.

Modelled from the spec: the surrounding `timeout` context manager lives in
`unicornherder/timeout.py`, which is not among the given sources; per the
specification it is a passive single-shot deadline that interrupts the
enclosed block with `TimeoutError` once `max_worker_wait_time` seconds have
elapsed, so the poll observes the child count at ticks
`t0, t0+1, ..., t0+remaining-1` and the tick at the deadline itself is never
reached. -/
def poll_children (expected : Int) (new_children : Nat → Nat) :
    Nat → Nat → Option Nat
  | _, 0 => none
  | t, r + 1 =>
    if expected ≤ (new_children t : Int) then some t
    else poll_children expected new_children (t + 1) r

/-- Embedding of `_wait_for_workers(overlap, max_worker_wait_time,
new_process, old_process)`.  `old_children` is `len(old_process.children())`
sampled at entry; `new_children` gives `len(new_process.children())` at each
subsequent tick.  On reaching the target the code sleeps `overlap` seconds
and returns; on `TimeoutError` it logs a warning and returns at once (the
exception never reaches the caller). -/
def wait_for_workers (overlap max_worker_wait_time : Nat)
    (new_children : Nat → Nat) (old_children : Nat) : WaitResult :=
  let current_workers : Int := (old_children : Int) - 1
  let expected : Int := max current_workers 1
  match poll_children expected new_children 0 max_worker_wait_time with
  | some t => ⟨expected, false, true, t + overlap⟩
  | none => ⟨expected, true, false, max_worker_wait_time⟩

/-- Outcome of `Herder._read_pidfile`. -/
inductive PidOutcome
  | pid (p : Nat)
  | clean_none
  | timeout_error
deriving DecidableEq

/-- Result of `Herder._read_pidfile` together with how many read attempts
were made and how many 1-second retry sleeps were performed. -/
structure PidRead where
  outcome : PidOutcome
  attempts : Nat
  slept : Nat
deriving DecidableEq

/-- Retry loop of `Herder._read_pidfile`.  `reads k` is the result of the
`k`-th access to `pidfile.pid`: `some p` on success, `none` when it raises
`PidfileError`.  On failure with `terminating` set it returns `None`
immediately; otherwise it sleeps 1 second and gives up (raising
`HerderError`, the `timeout_error` outcome) once the slept time exceeds
`pidfile_timeout` — `remaining` counts the retries still allowed.

Modelled from the spec: the `Pidfile` class lives in
`unicornherder/pidfile.py`, which is not among the given sources; per the
specification its read either yields the integer PID or fails
(transient/malformed alike), which is exactly the `Option Nat` that
`reads` supplies. -/
def read_pidfile_aux (terminating : Bool) (reads : Nat → Option Nat) :
    Nat → Nat → Nat → PidRead
  | attempt, slept, remaining =>
    match reads attempt with
    | some p => ⟨PidOutcome.pid p, attempt + 1, slept⟩
    | none =>
      if terminating then ⟨PidOutcome.clean_none, attempt + 1, slept⟩
      else
        match remaining with
        | 0 => ⟨PidOutcome.timeout_error, attempt + 1, slept + 1⟩
        | r + 1 => read_pidfile_aux terminating reads (attempt + 1) (slept + 1) r

/-- Embedding of `Herder._read_pidfile` with `pidfile_timeout = T`:
the loop starts with a fresh attempt counter and zero elapsed time, and the
`(time.time() - start) > self.pidfile_timeout` check permits `T` retries
after the first failure. -/
def read_pidfile (terminating : Bool) (T : Nat) (reads : Nat → Option Nat) : PidRead :=
  read_pidfile_aux terminating reads 0 0 T

/-- The mutable state of a `Herder` that the monitor loop and the signal
handlers touch, together with the process-wide `MANAGED_PIDS` set. -/
structure HerderState where
  master : Option Nat
  reloading : Bool
  terminating : Bool
  MANAGED_PIDS : Finset Nat
  pidfile_timeout : Nat
deriving DecidableEq

/-- Environment seen by one iteration of `_loop_inner`: the pidfile read
attempts of this iteration, and which PIDs name live processes (whether
`psutil.Process(pid)` succeeds). -/
structure IterEnv where
  reads : Nat → Option Nat
  alive : Nat → Bool

/-- Calls `_loop_inner` makes into the reload coordinator; recorded as a
trace.  `wait_call p q` is `_wait_for_workers(..., new master p, old master
q)`; `kill_call q` is `_kill_old_master(q)`. -/
inductive HEvent
  | wait_call (newPid oldPid : Nat)
  | kill_call (oldPid : Nat)
deriving DecidableEq

/-- How one `_loop_inner` call ends: `ok` (returned `True`), `died`
(returned `False`), `herder_error` (`HerderError` from `_read_pidfile`
propagated), `key_error` (`MANAGED_PIDS.remove` on an absent PID raised
`KeyError`). -/
inductive InnerOutcome
  | ok
  | died
  | herder_error
  | key_error
deriving DecidableEq

/-- Embedding of `Herder._loop_inner`, returning the outcome, the state
after the call, and the reload-coordinator calls it made.  The handover
routines are recorded as events rather than inlined: `_wait_for_workers`
catches its own timeout, so from the loop's point of view the handover
returns normally (the separately modelled `psutil.NoSuchProcess` edge case
of `_kill_old_master` aside). -/
def loop_inner (env : IterEnv) (st : HerderState) :
    InnerOutcome × HerderState × List HEvent :=
  let old_master := st.master
  match (read_pidfile st.terminating st.pidfile_timeout env.reads).outcome with
  | PidOutcome.timeout_error => (InnerOutcome.herder_error, st, [])
  | PidOutcome.clean_none => (InnerOutcome.died, st, [])
  | PidOutcome.pid p =>
    if env.alive p = false then
      (InnerOutcome.died, st, [])
    else
      let st1 : HerderState := { st with master := some p }
      match old_master with
      | none =>
        (InnerOutcome.ok, { st1 with MANAGED_PIDS := insert p st1.MANAGED_PIDS }, [])
      | some q =>
        if p = q then
          (InnerOutcome.ok, st1, [])
        else
          let st2 : HerderState := { st1 with MANAGED_PIDS := insert p st1.MANAGED_PIDS }
          let step3 : HerderState × List HEvent :=
            if st2.reloading then
              ({ st2 with reloading := false },
               [HEvent.wait_call p q, HEvent.kill_call q])
            else
              (st2, [])
          if q ∈ step3.1.MANAGED_PIDS then
            (InnerOutcome.ok,
             { step3.1 with MANAGED_PIDS := step3.1.MANAGED_PIDS.erase q },
             step3.2)
          else
            (InnerOutcome.key_error, step3.1, step3.2)

/-- How `Herder.loop` ends: with a status code, with a propagated
exception, or still running after the given number of iterations. -/
inductive LoopOutcome
  | status (code : Nat)
  | herder_error
  | key_error
  | running (st : HerderState)
deriving DecidableEq

/-- Embedding of `Herder.loop`: repeatedly runs `_loop_inner` (environment
`envs k` for iteration `k`); when it returns `False` the loop logs
"... died. Exiting." and returns the status code 1; exceptions propagate.
`fuel` bounds the number of iterations modelled. -/
def loop : Nat → (Nat → IterEnv) → HerderState → LoopOutcome
  | 0, _, st => LoopOutcome.running st
  | n + 1, envs, st =>
    match loop_inner (envs 0) st with
    | (InnerOutcome.ok, st1, _) => loop n (fun k => envs (k + 1)) st1
    | (InnerOutcome.died, _, _) => LoopOutcome.status 1
    | (InnerOutcome.herder_error, _, _) => LoopOutcome.herder_error
    | (InnerOutcome.key_error, _, _) => LoopOutcome.key_error

/-- Environment of the part of `Herder.spawn` that follows the successful
`subprocess.Popen` call (herder.py lines 131-145): the child's PID, whether
`process.wait()` returned within `boot_timeout` (the `timeout` context
manager from `unicornherder/timeout.py`, modelled from the spec as a
single-shot deadline raising `TimeoutError`), and whether `process.poll()`
still reported the process as running when the deadline fired. -/
structure SpawnEnv where
  childPid : Nat
  exits_within_timeout : Bool
  still_running_after_timeout : Bool

/-- Result of that part of `spawn`: the boolean return value, whether
`process.terminate()` was invoked, and the `MANAGED_PIDS` set afterwards. -/
structure SpawnResult where
  success : Bool
  term_sent : Bool
  pids_after : Finset Nat
deriving DecidableEq

/-- Embedding of `Herder.spawn` after `Popen`: add the child PID to
`MANAGED_PIDS`; wait bounded by `boot_timeout`; on `TimeoutError` send
`terminate()` if the process still runs and return `False`; on a timely
exit remove the PID and return `True`. -/
def spawn_wait (env : SpawnEnv) (pids : Finset Nat) : SpawnResult :=
  let pids1 := insert env.childPid pids
  if env.exits_within_timeout then
    ⟨true, false, pids1.erase env.childPid⟩
  else
    ⟨false, env.still_running_after_timeout, pids1⟩

/-- The signals `spawn` forwards to the tracked master (`SIGWINCH` is
deliberately excluded). -/
def forwarded_signals : List Sig :=
  [Sig.SIGINT, Sig.SIGQUIT, Sig.SIGTERM, Sig.SIGTTIN, Sig.SIGTTOU,
   Sig.SIGUSR1, Sig.SIGUSR2]

/-- Embedding of the closure returned by `Herder._handle_signal`: with no
tracked master it logs and returns; otherwise it sets `terminating` for
INT/QUIT/TERM and forwards the signal to the master.  The returned list is
the signals sent (signal, target PID). -/
def handle_signal (signum : Sig) (st : HerderState) :
    HerderState × List (Sig × Nat) :=
  match st.master with
  | none => (st, [])
  | some mpid =>
    let st1 : HerderState :=
      if signum ∈ [Sig.SIGINT, Sig.SIGQUIT, Sig.SIGTERM] then
        { st with terminating := true }
      else
        st
    (st1, [(signum, mpid)])

/-- Embedding of `Herder._handle_HUP`: with no tracked master it logs and
returns; otherwise it sets `reloading` and sends `SIGUSR2` to the master. -/
def handle_HUP (st : HerderState) : HerderState × List (Sig × Nat) :=
  match st.master with
  | none => (st, [])
  | some mpid => ({ st with reloading := true }, [(Sig.SIGUSR2, mpid)])

/-- Whether an `Except` value is a success (did not raise). -/
def except_ok {e a : Type} : Except e a → Bool
  | Except.ok _ => true
  | Except.error _ => false

/-- Pidfile reads that always fail. -/
def reads_fail : Nat → Option Nat := fun _ => none

/-- An iteration environment in which the pidfile is never readable. -/
def env_fail : IterEnv := ⟨reads_fail, fun _ => false⟩

/-- A state tracking master PID 42 with `terminating` set. -/
def st_term : HerderState := ⟨some 42, false, true, {42}, 5⟩

/-- A state tracking master PID 42 with `terminating` unset. -/
def st_noterm : HerderState := ⟨some 42, false, false, {42}, 5⟩

/-- A state with no tracked master. -/
def st_nomaster : HerderState := ⟨none, false, false, ∅, 180⟩

/-- A handle on a process that has already exited. -/
def dead_proc : ProcHandle := ⟨42, fun _ => false⟩

/-- A handle on a process that stays alive. -/
def live_proc : ProcHandle := ⟨42, fun _ => true⟩

/-- An iteration environment observing a fork to new master PID 43. -/
def env_fork : IterEnv := ⟨fun _ => some 43, fun _ => true⟩

/-- A state tracking master 42 with `reloading` set. -/
def st_reload : HerderState := ⟨some 42, true, false, {42}, 5⟩

/-- A state tracking master 42 with `reloading` unset. -/
def st_noreload : HerderState := ⟨some 42, false, false, {42}, 5⟩

/-- A child-count history that grows by one each second. -/
def children_ramp : Nat → Nat := fun t => t

/-- C6: constructing a `Herder` with any flavor in the `COMMANDS` table and
no custom binary succeeds; with a flavor outside the table and no custom
binary it raises `HerderError` at construction time. -/
theorem C6_flavor_construction (flavor : String) (pf : Option String)
    (bt pt ov mw : Nat) (args : String) :
    ((COMMANDS.lookup flavor).isSome = true →
      except_ok (Herder.init flavor none none pf bt pt ov mw args) = true) ∧
    (COMMANDS.lookup flavor = none →
      except_ok (Herder.init flavor none none pf bt pt ov mw args) = false) := by
  cases hl : COMMANDS.lookup flavor with
  | none =>
    refine ⟨fun hcontra => ?_, fun _ => ?_⟩
    · simp at hcontra
    · simp [Herder.init, hl, except_ok]
  | some c =>
    refine ⟨fun _ => ?_, fun hcontra => ?_⟩
    · simp [Herder.init, hl, except_ok]
    · simp at hcontra

/-- Witness for C6 at a known flavor and an unknown one. -/
theorem C6_flavor_construction_witness :
    except_ok (Herder.init "gunicorn" none none none 180 180 180 180 "") = true ∧
    except_ok (Herder.init "mongrel" none none none 180 180 180 180 "") = false :=
  ⟨(C6_flavor_construction "gunicorn" none 180 180 180 180 "").1 (by decide),
   (C6_flavor_construction "mongrel" none 180 180 180 180 "").2 (by decide)⟩

/-- C10: when `terminating` is already set and the first pidfile read
fails, `_read_pidfile` returns `None` after exactly one attempt, with no
retry sleep, and the result does not depend on `pidfile_timeout`. -/
theorem C10_terminating_first_failure (T : Nat) (reads : Nat → Option Nat)
    (h : reads 0 = none) :
    read_pidfile true T reads = ⟨PidOutcome.clean_none, 1, 0⟩ := by
  cases T <;> simp [read_pidfile, read_pidfile_aux, h]

/-- Witness for C10 on always-failing reads. -/
theorem C10_terminating_first_failure_witness :
    read_pidfile true 180 reads_fail = ⟨PidOutcome.clean_none, 1, 0⟩ :=
  C10_terminating_first_failure 180 reads_fail rfl

/-- C9: with no tracked master, both the forwarded-signal handler and the
HUP handler return without sending any signal and without changing the
state (in particular, `reloading` and `terminating` keep their values). -/
theorem C9_no_master_noop (signum : Sig) (st : HerderState)
    (h : st.master = none) :
    handle_signal signum st = (st, []) ∧ handle_HUP st = (st, []) := by
  constructor <;> simp [handle_signal, handle_HUP, h]

/-- Witness for C9 with no tracked master. -/
theorem C9_no_master_noop_witness :
    handle_signal Sig.SIGINT st_nomaster = (st_nomaster, []) ∧
    handle_HUP st_nomaster = (st_nomaster, []) :=
  C9_no_master_noop Sig.SIGINT st_nomaster rfl

/-- C2 counterexample: a boot-timeout spawn failure (child PID 7, still
running when the deadline fires) returns failure and sends the terminate
signal, but PID 7 is still in the registry afterwards — refuting the claim
that the registry no longer contains it. -/
theorem C2_counterexample :
    (spawn_wait ⟨7, false, true⟩ ∅).success = false ∧
    (spawn_wait ⟨7, false, true⟩ ∅).term_sent = true ∧
    7 ∈ (spawn_wait ⟨7, false, true⟩ ∅).pids_after := by
  decide

/-- C2 (amended): when the spawned process does not exit within
`boot_timeout`, `spawn` returns failure, `terminate()` is invoked exactly
when the process is still running, and the child's PID remains in
`MANAGED_PIDS` (it is removed only on the success path; the registry entry
is what lets the atexit cleanup reap the stuck process). -/
theorem C2_boot_timeout_cleanup (env : SpawnEnv) (pids : Finset Nat)
    (h : env.exits_within_timeout = false) :
    (spawn_wait env pids).success = false ∧
    (spawn_wait env pids).term_sent = env.still_running_after_timeout ∧
    env.childPid ∈ (spawn_wait env pids).pids_after := by
  simp [spawn_wait, h]

/-- Witness for C2 (amended) at a concrete timed-out spawn. -/
theorem C2_boot_timeout_cleanup_witness :
    (spawn_wait ⟨9, false, true⟩ {3}).success = false ∧
    (spawn_wait ⟨9, false, true⟩ {3}).term_sent = true ∧
    9 ∈ (spawn_wait ⟨9, false, true⟩ {3}).pids_after :=
  C2_boot_timeout_cleanup ⟨9, false, true⟩ {3} rfl

/-- C3 counterexample: calling `_kill_old_master` on a process that has
already exited raises (`psutil.NoSuchProcess` escapes), refuting the claim
that it never raises in the supervisor. -/
theorem C3_counterexample : (kill_old_master dead_proc 0).2 = true := by
  decide

/-- C3 (amended): `_kill_old_master` is fire-and-forget — it returns right
after the second send without waiting for the old master to exit, and it
does not raise as long as the old master process still exists at both send
instants; only a master that has fully exited before a send makes the
unguarded `send_signal` raise. -/
theorem C3_fire_and_forget (p : ProcHandle) (t0 : Nat)
    (h1 : p.alive_at t0 = true) (h2 : p.alive_at (t0 + 1) = true) :
    (kill_old_master p t0).2 = false ∧
    (kill_old_master p t0).1 =
      [⟨t0, Sig.SIGWINCH, p.pid⟩, ⟨t0 + 1, Sig.SIGQUIT, p.pid⟩] := by
  simp [kill_old_master, h1, h2]

/-- Witness for C3 (amended) on a live old master. -/
theorem C3_fire_and_forget_witness :
    (kill_old_master live_proc 0).2 = false ∧
    (kill_old_master live_proc 0).1 =
      [⟨0, Sig.SIGWINCH, 42⟩, ⟨1, Sig.SIGQUIT, 42⟩] :=
  C3_fire_and_forget live_proc 0 rfl rfl

/-- Every run of `_kill_old_master` produces one of three traces: nothing
sent (raise at the first send), WINCH only (raise at the second send), or
WINCH then QUIT one second later. -/
theorem kill_old_master_cases (p : ProcHandle) (t0 : Nat) :
    kill_old_master p t0 = ([], true) ∨
    kill_old_master p t0 = ([⟨t0, Sig.SIGWINCH, p.pid⟩], true) ∨
    kill_old_master p t0 =
      ([⟨t0, Sig.SIGWINCH, p.pid⟩, ⟨t0 + 1, Sig.SIGQUIT, p.pid⟩], false) := by
  unfold kill_old_master
  cases h1 : p.alive_at t0 <;> cases h2 : p.alive_at (t0 + 1) <;> simp [h1, h2]

/-- C7: in every execution of `_kill_old_master` the only signals sent are
WINCH and QUIT, and any QUIT sent was preceded by a WINCH sent at least one
second earlier. -/
theorem C7_winch_before_quit (p : ProcHandle) (t0 : Nat) :
    (∀ e ∈ (kill_old_master p t0).1,
      e.sig = Sig.SIGWINCH ∨ e.sig = Sig.SIGQUIT) ∧
    (∀ e ∈ (kill_old_master p t0).1, e.sig = Sig.SIGQUIT →
      ∃ w ∈ (kill_old_master p t0).1,
        w.sig = Sig.SIGWINCH ∧ w.time + 1 ≤ e.time) := by
  rcases kill_old_master_cases p t0 with h | h | h <;> rw [h]
  · simp
  · simp
  · constructor
    · intro e he
      simp only [List.mem_cons, List.not_mem_nil, or_false] at he
      rcases he with he | he <;> subst he <;> simp
    · intro e he hq
      refine ⟨⟨t0, Sig.SIGWINCH, p.pid⟩, by simp, rfl, ?_⟩
      simp only [List.mem_cons, List.not_mem_nil, or_false] at he
      rcases he with he | he <;> subst he
      · simp at hq
      · simp

/-- Witness for C7: on a live old master, the QUIT at time 1 is preceded by
the WINCH at time 0. -/
theorem C7_winch_before_quit_witness :
    ∃ w ∈ (kill_old_master live_proc 0).1,
      w.sig = Sig.SIGWINCH ∧ w.time + 1 ≤ (1 : Nat) :=
  (C7_winch_before_quit live_proc 0).2 ⟨1, Sig.SIGQUIT, 42⟩ (by decide) rfl

/-- If the poll loop of `_wait_for_workers` stops at time `t`, then `t` is
inside the deadline window, the child count at `t` reached the target, and
every earlier observed count was below the target. -/
theorem poll_children_some_spec (expected : Int) (c : Nat → Nat) :
    ∀ (r t0 t : Nat), poll_children expected c t0 r = some t →
      t0 ≤ t ∧ t < t0 + r ∧ expected ≤ (c t : Int) ∧
      ∀ s, t0 ≤ s → s < t → (c s : Int) < expected := by
  intro r
  induction r with
  | zero => intro t0 t h; simp [poll_children] at h
  | succ n ih =>
    intro t0 t h
    rw [poll_children] at h
    by_cases hc : expected ≤ (c t0 : Int)
    · rw [if_pos hc] at h
      cases h
      exact ⟨le_refl t0, by omega, hc, fun s hs1 hs2 => by omega⟩
    · rw [if_neg hc] at h
      obtain ⟨h1, h2, h3, h4⟩ := ih (t0 + 1) t h
      refine ⟨by omega, by omega, h3, ?_⟩
      intro s hs1 hs2
      rcases Nat.eq_or_lt_of_le hs1 with he | hl
      · rw [← he]; omega
      · exact h4 s hl hs2

/-- If the poll loop of `_wait_for_workers` times out, no observed child
count inside the deadline window reached the target. -/
theorem poll_children_none_spec (expected : Int) (c : Nat → Nat) :
    ∀ (r t0 : Nat), poll_children expected c t0 r = none →
      ∀ s, t0 ≤ s → s < t0 + r → (c s : Int) < expected := by
  intro r
  induction r with
  | zero => intro t0 _ s hs1 hs2; omega
  | succ n ih =>
    intro t0 h s hs1 hs2
    rw [poll_children] at h
    by_cases hc : expected ≤ (c t0 : Int)
    · rw [if_pos hc] at h; cases h
    · rw [if_neg hc] at h
      rcases Nat.eq_or_lt_of_le hs1 with he | hl
      · rw [← he]; omega
      · exact ih (t0 + 1) h s hl (by omega)

/-- Value of `_wait_for_workers` when the poll reaches the target at time
`t`. -/
theorem wait_for_workers_eq_some (overlap mw : Nat) (c : Nat → Nat)
    (old t : Nat)
    (hp : poll_children (max ((old : Int) - 1) 1) c 0 mw = some t) :
    wait_for_workers overlap mw c old =
      ⟨max ((old : Int) - 1) 1, false, true, t + overlap⟩ := by
  simp only [wait_for_workers]
  rw [hp]

/-- Value of `_wait_for_workers` when the poll hits the deadline. -/
theorem wait_for_workers_eq_none (overlap mw : Nat) (c : Nat → Nat)
    (old : Nat)
    (hp : poll_children (max ((old : Int) - 1) 1) c 0 mw = none) :
    wait_for_workers overlap mw c old =
      ⟨max ((old : Int) - 1) 1, true, false, mw⟩ := by
  simp only [wait_for_workers]
  rw [hp]

/-- C5: `_wait_for_workers` computes its target as
`expected_children = max(children_of(old_master) - 1, 1)` and its poll
stops exactly when the new master's child count first reaches that
target. -/
theorem C5_expected_children (overlap mw : Nat) (c : Nat → Nat) (old : Nat) :
    (wait_for_workers overlap mw c old).expected_children =
      max ((old : Int) - 1) 1 ∧
    ((wait_for_workers overlap mw c old).timed_out = false →
      ∃ t, t < mw ∧ max ((old : Int) - 1) 1 ≤ (c t : Int) ∧
        ∀ s < t, (c s : Int) < max ((old : Int) - 1) 1) ∧
    ((∃ t, t < mw ∧ max ((old : Int) - 1) 1 ≤ (c t : Int)) →
      (wait_for_workers overlap mw c old).timed_out = false) := by
  cases hp : poll_children (max ((old : Int) - 1) 1) c 0 mw with
  | some t =>
    rw [wait_for_workers_eq_some overlap mw c old t hp]
    obtain ⟨-, h2, h3, h4⟩ := poll_children_some_spec _ c mw 0 t hp
    exact ⟨rfl, fun _ => ⟨t, by omega, h3, fun s hs => h4 s (Nat.zero_le s) hs⟩,
           fun _ => rfl⟩
  | none =>
    rw [wait_for_workers_eq_none overlap mw c old hp]
    have hall := poll_children_none_spec _ c mw 0 hp
    refine ⟨rfl, fun hcontra => by simp at hcontra, fun hex => ?_⟩
    obtain ⟨t, ht, hc⟩ := hex
    exact absurd hc (not_le.mpr (hall t (Nat.zero_le t) (by omega)))

/-- Witness for C5: an old master with 5 children yields the target 4, and
with the ramping child history the poll succeeds. -/
theorem C5_expected_children_witness :
    (wait_for_workers 2 10 children_ramp 5).expected_children =
      max ((5 : Int) - 1) 1 ∧
    (wait_for_workers 2 10 children_ramp 5).timed_out = false :=
  ⟨(C5_expected_children 2 10 children_ramp 5).1,
   (C5_expected_children 2 10 children_ramp 5).2.2 ⟨4, by decide, by decide⟩⟩

/-- C8: `_wait_for_workers` returns within `max_worker_wait_time + overlap`
seconds; on timeout it returns normally (the `TimeoutError` is caught, the
overlap hold is skipped, and the handover proceeds); when the target is
already met at the first poll it holds for exactly the `overlap` period. -/
theorem C8_wait_bounded (overlap mw : Nat) (c : Nat → Nat) (old : Nat) :
    (wait_for_workers overlap mw c old).return_time ≤ mw + overlap ∧
    ((wait_for_workers overlap mw c old).timed_out = true →
      (wait_for_workers overlap mw c old).overlap_held = false ∧
      (wait_for_workers overlap mw c old).return_time = mw) ∧
    (0 < mw → max ((old : Int) - 1) 1 ≤ (c 0 : Int) →
      (wait_for_workers overlap mw c old).timed_out = false ∧
      (wait_for_workers overlap mw c old).overlap_held = true ∧
      (wait_for_workers overlap mw c old).return_time = overlap) := by
  cases hp : poll_children (max ((old : Int) - 1) 1) c 0 mw with
  | some t =>
    rw [wait_for_workers_eq_some overlap mw c old t hp]
    obtain ⟨-, h2, h3, h4⟩ := poll_children_some_spec _ c mw 0 t hp
    refine ⟨by exact Nat.add_le_add_right (by omega) overlap,
            fun hcontra => by simp at hcontra, fun hmw hc0 => ?_⟩
    have ht0 : t = 0 := by
      by_contra hne
      exact absurd hc0 (not_le.mpr (h4 0 (le_refl 0) (by omega)))
    rw [ht0]
    exact ⟨rfl, rfl, Nat.zero_add overlap⟩
  | none =>
    rw [wait_for_workers_eq_none overlap mw c old hp]
    have hall := poll_children_none_spec _ c mw 0 hp
    refine ⟨Nat.le_add_right mw overlap, fun _ => ⟨rfl, rfl⟩, fun hmw hc0 => ?_⟩
    exact absurd hc0 (not_le.mpr (hall 0 (le_refl 0) (by omega)))

/-- Witness for C8: target met immediately, so the wait holds for exactly
the overlap period; and with no workers ever appearing it times out at the
deadline. -/
theorem C8_wait_bounded_witness :
    (wait_for_workers 7 10 (fun _ => 6) 5).timed_out = false ∧
    (wait_for_workers 7 10 (fun _ => 6) 5).overlap_held = true ∧
    (wait_for_workers 7 10 (fun _ => 6) 5).return_time = 7 :=
  (C8_wait_bounded 7 10 (fun _ => 6) 5).2.2 (by decide) (by decide)

/-- When every pidfile read fails and `terminating` is unset,
`_read_pidfile` exhausts its retries and raises `HerderError`. -/
theorem read_pidfile_aux_all_fail (reads : Nat → Option Nat)
    (h : ∀ k, reads k = none) :
    ∀ (remaining attempt slept : Nat),
      read_pidfile_aux false reads attempt slept remaining =
        ⟨PidOutcome.timeout_error, attempt + remaining + 1,
         slept + remaining + 1⟩ := by
  intro remaining
  induction remaining with
  | zero => intro a s; simp [read_pidfile_aux, h a]
  | succ r ih =>
    intro a s
    rw [read_pidfile_aux, h a]
    simp [ih (a + 1) (s + 1), PidRead.mk.injEq]
    omega

/-- C1 counterexample: with `terminating` already true and the pidfile
unreadable (the operator-initiated shutdown path), the monitor loop ends
with status 1 — not the zero status the claim asserts for this path. -/
theorem C1_counterexample :
    loop 1 (fun _ => env_fail) st_term = LoopOutcome.status 1 ∧
    LoopOutcome.status 1 ≠ LoopOutcome.status 0 := by
  constructor
  · rfl
  · decide

/-- C1 (amended): when `terminating` is true and the pidfile read fails,
the loop returns normally with status 1 — the same status as an unexpected
death; when `terminating` is false and the pidfile stays unreadable, the
loop instead aborts with a propagated `HerderError`.  The distinguishable
signal is exception versus normal return, not zero versus non-zero
status. -/
theorem C1_exit_paths (envs : Nat → IterEnv) (st : HerderState) (n : Nat) :
    (st.terminating = true → (envs 0).reads 0 = none →
      loop (n + 1) envs st = LoopOutcome.status 1) ∧
    (st.terminating = false → (∀ k, (envs 0).reads k = none) →
      loop (n + 1) envs st = LoopOutcome.herder_error) := by
  constructor
  · intro ht hr
    have hread : (read_pidfile st.terminating st.pidfile_timeout
        (envs 0).reads).outcome = PidOutcome.clean_none := by
      rw [ht]
      cases hT : st.pidfile_timeout <;>
        simp [read_pidfile, read_pidfile_aux, hr]
    simp [loop, loop_inner, hread]
  · intro ht hr
    have hread : (read_pidfile st.terminating st.pidfile_timeout
        (envs 0).reads).outcome = PidOutcome.timeout_error := by
      rw [ht, read_pidfile,
          read_pidfile_aux_all_fail (envs 0).reads hr st.pidfile_timeout 0 0]
    simp [loop, loop_inner, hread]

/-- Witness for C1 (amended): both exit paths at concrete states. -/
theorem C1_exit_paths_witness :
    loop 1 (fun _ => env_fail) st_term = LoopOutcome.status 1 ∧
    loop 1 (fun _ => env_fail) st_noterm = LoopOutcome.herder_error :=
  ⟨(C1_exit_paths (fun _ => env_fail) st_term 0).1 rfl rfl,
   (C1_exit_paths (fun _ => env_fail) st_noterm 0).2 rfl (fun _ => rfl)⟩

/-- C4: when the loop observes a master-PID change (old master `q` tracked
and in the registry, new PID `p ≠ q` read and alive), the iteration
succeeds, the new PID is tracked and registered, the old PID is removed
from the registry regardless of `reloading`, `reloading` ends up cleared,
and the handover calls (`_wait_for_workers` then `_kill_old_master`) happen
exactly when `reloading` was set. -/
theorem C4_pid_change (env : IterEnv) (st : HerderState) (p q : Nat)
    (hm : st.master = some q) (hr : env.reads 0 = some p) (hne : p ≠ q)
    (ha : env.alive p = true) (hq : q ∈ st.MANAGED_PIDS) :
    (loop_inner env st).1 = InnerOutcome.ok ∧
    (loop_inner env st).2.1.master = some p ∧
    p ∈ (loop_inner env st).2.1.MANAGED_PIDS ∧
    q ∉ (loop_inner env st).2.1.MANAGED_PIDS ∧
    (loop_inner env st).2.1.reloading = false ∧
    (st.reloading = true →
      (loop_inner env st).2.2 = [HEvent.wait_call p q, HEvent.kill_call q]) ∧
    (st.reloading = false → (loop_inner env st).2.2 = []) := by
  have hread : (read_pidfile st.terminating st.pidfile_timeout
      env.reads).outcome = PidOutcome.pid p := by
    cases hterm : st.terminating <;> cases hT : st.pidfile_timeout <;>
      simp [read_pidfile, read_pidfile_aux, hr]
  cases hrel : st.reloading <;>
    simp [loop_inner, hread, hm, ha, hne, hrel, hq, Finset.mem_insert,
      Finset.mem_erase, Finset.not_mem_erase]

/-- Witness for C4 at a concrete fork observation, in both the reloading
and the non-reloading state. -/
theorem C4_pid_change_witness :
    ((loop_inner env_fork st_reload).1 = InnerOutcome.ok ∧
     (loop_inner env_fork st_reload).2.1.master = some 43 ∧
     43 ∈ (loop_inner env_fork st_reload).2.1.MANAGED_PIDS ∧
     42 ∉ (loop_inner env_fork st_reload).2.1.MANAGED_PIDS ∧
     (loop_inner env_fork st_reload).2.1.reloading = false ∧
     (st_reload.reloading = true →
       (loop_inner env_fork st_reload).2.2 =
         [HEvent.wait_call 43 42, HEvent.kill_call 42]) ∧
     (st_reload.reloading = false →
       (loop_inner env_fork st_reload).2.2 = [])) ∧
    ((loop_inner env_fork st_noreload).1 = InnerOutcome.ok ∧
     (loop_inner env_fork st_noreload).2.1.master = some 43 ∧
     43 ∈ (loop_inner env_fork st_noreload).2.1.MANAGED_PIDS ∧
     42 ∉ (loop_inner env_fork st_noreload).2.1.MANAGED_PIDS ∧
     (loop_inner env_fork st_noreload).2.1.reloading = false ∧
     (st_noreload.reloading = true →
       (loop_inner env_fork st_noreload).2.2 =
         [HEvent.wait_call 43 42, HEvent.kill_call 42]) ∧
     (st_noreload.reloading = false →
       (loop_inner env_fork st_noreload).2.2 = [])) :=
  ⟨C4_pid_change env_fork st_reload 43 42 rfl rfl (by decide) rfl (by decide),
   C4_pid_change env_fork st_noreload 43 42 rfl rfl (by decide) rfl (by decide)⟩

end Unicornherder
